import Mathlib

/-!
Shallow embedding of the Express.js wiki/auth tutorial applications in this
repository, together with theorems about their route handlers.

The embedded code comes from:
* `src/unnamed/part_007` — the iron-session auth router (`GET/POST /register`,
  `GET/POST /login`), with the `errors.errros` typo on validation failure;
* `src/unnamed/part_005` / `part_006` — the `requireLogin` guard and the
  in-memory wiki router (`GET /wiki/:pageName`, `GET/POST /create`);
* `src/Workshop3/Example/Example5/routes/auth.js` — the earlier auth router
  variant that maps validation errors to danger flash messages;
* `src/Workshop3/Example/Example2/routes/wiki.js` — the Markdown wiki variant
  (`isMarkdown` flag, `marked` rendering on view);
* `src/Workshop3/Example/Example4/routes/profile.js` and
  `src/Workshop4/Example/Example3/middlewares/upload.js` — the avatar upload
  route with the multer `fileFilter`;
* `src/Workshop4/Example/Example2/routes/wiki.js` — the SQL-backed
  `POST /create` with its insert-error-to-flash-message mapping.

JavaScript objects used as key/value stores (`app.locals.users`,
`app.locals.pages`) are modeled as association lists over `String` keys.
JS `undefined` is modeled as `none` of an `Option` type.  Mutable session
and store state is threaded explicitly: each handler takes the incoming
session and application state and returns the response together with the
outgoing session and state.
-/

namespace Wiki

/-- A flash message as stored in `req.session.messages`:
`{ category, message }`. -/
structure Msg where
  category : String
  message : String
deriving DecidableEq

/-- An express-validator error object, reduced to the fields the handlers
use: the offending field path and the error message (`err.msg`). -/
structure ValErr where
  path : String
  msg : String
deriving DecidableEq

/-- A user record in `app.locals.users`:
`{ password, avatar }` with `avatar: null` until an upload succeeds. -/
structure UserRec where
  password : String
  avatar : Option String
deriving DecidableEq

/-- A page record in `app.locals.pages`: `{ content, author }`, plus the
`isMarkdown` flag set by the Workshop3/Example2 variant (absent — i.e. falsy,
modeled `false` — in the variants that never set it) and the `htmlContent`
property that `GET /wiki/:pageName` assigns onto the stored object
(absent, i.e. `none`, until a view assigns it). -/
structure PageRec where
  content : String
  author : Option String
  isMarkdown : Bool := false
  htmlContent : Option String := none
deriving DecidableEq

/-- The session object attached by the iron-session middleware.
`user` holds `req.session.user` — the code only ever stores `{ username }`
there, so it is modeled by the username itself; `none` is an absent field.
`messages` models `req.session.messages` (read as `... || []`, so the
never-assigned case is identified with `[]`).  `errors` models
`req.session.errors`, kept as an `Option` because one code path assigns
the JS value `undefined` to it. -/
structure Session where
  user : Option String := none
  messages : List Msg := []
  errors : Option (List ValErr) := none
deriving DecidableEq

/-- The in-memory application state: `app.locals.users` and
`app.locals.pages`, each a JS object keyed by a string. -/
structure AppState where
  users : List (String × UserRec) := []
  pages : List (String × PageRec) := []
deriving DecidableEq

/-- JS object property read `obj[k]`: the stored value, or `undefined`
(`none`) when the key is absent. -/
def assocGet {α : Type} : List (String × α) → String → Option α
  | [], _ => none
  | (k', v) :: rest, k => if k' = k then some v else assocGet rest k

/-- JS object property write `obj[k] = v`: overwrite in place when the key
exists, append otherwise. -/
def assocSet {α : Type} : List (String × α) → String → α → List (String × α)
  | [], k, v => [(k, v)]
  | (k', v') :: rest, k, v =>
      if k' = k then (k, v) :: rest else (k', v') :: assocSet rest k v

theorem assocGet_assocSet_self {α : Type} (l : List (String × α)) (k : String) (v : α) :
    assocGet (assocSet l k v) k = some v := by
  induction l with
  | nil => simp [assocSet, assocGet]
  | cons hd tl ih =>
      obtain ⟨k', v'⟩ := hd
      by_cases h : k' = k <;> simp [assocSet, assocGet, h, ih]

theorem assocGet_assocSet_ne {α : Type} (l : List (String × α)) (k k' : String) (v : α)
    (h : k' ≠ k) : assocGet (assocSet l k v) k' = assocGet l k' := by
  have h' : ¬k = k' := fun hh => h hh.symm
  induction l with
  | nil => simp [assocSet, assocGet, h']
  | cons hd tl ih =>
      obtain ⟨k₀, v₀⟩ := hd
      by_cases h0 : k₀ = k
      · subst h0
        simp [assocSet, assocGet, h']
      · simp [assocSet, assocGet, h0, ih]

/-- The JS string method `trim()` applied by express-validator's `.trim()`
sanitizer: strip leading and trailing whitespace. -/
def jsTrim (s : String) : String :=
  String.mk (((s.toList.dropWhile Char.isWhitespace).reverse.dropWhile
    Char.isWhitespace).reverse)

/-- The JS string method `toLowerCase()` restricted to the ASCII letters
that can occur in a file extension. -/
def jsToLower (s : String) : String :=
  String.mk (s.toList.map Char.toLower)

/-- Does the character list `needle` occur at the start of `hay`? -/
def listStartsWith : List Char → List Char → Bool
  | _, [] => true
  | [], _ :: _ => false
  | a :: as, b :: bs => a = b && listStartsWith as bs

/-- Does the character list `needle` occur anywhere inside `hay`? -/
def listContainsSub (needle : List Char) : List Char → Bool
  | [] => listStartsWith [] needle
  | c :: rest => listStartsWith (c :: rest) needle || listContainsSub needle rest

/-- The JS string method `hay.includes(needle)`. -/
def strIncludes (hay needle : String) : Bool :=
  listContainsSub needle.toList hay.toList

/-- Index of the last occurrence of `c`, as in JS `lastIndexOf`. -/
def lastIdxOf (c : Char) : List Char → Option Nat
  | [] => none
  | a :: rest =>
      match lastIdxOf c rest with
      | some i => some (i + 1)
      | none => if a = c then some 0 else none

/-- The part of a path after its last `/` separator. -/
def afterLastSlash (cs : List Char) : List Char :=
  match lastIdxOf '/' cs with
  | none => cs
  | some i => cs.drop (i + 1)

/-- Node's `path.extname`: the suffix of the basename starting at its last
dot; empty when the basename has no dot, when its only dot is the leading
character, or for the special name `..`. -/
def extname (s : String) : String :=
  let b := afterLastSlash s.toList
  if b = ['.', '.'] then "" else
    match lastIdxOf '.' b with
    | none => ""
    | some 0 => ""
    | some i => String.mk (b.drop i)

example : extname "photo.png" = ".png" := by decide
example : extname "archive.tar.gz" = ".gz" := by decide
example : extname ".bashrc" = "" := by decide
example : extname "noext" = "" := by decide
example : jsTrim "  bob  " = "bob" := by decide
example : strIncludes "SQLITE_CONSTRAINT: UNIQUE constraint failed: pages.title"
    "UNIQUE constraint failed" = true := by decide
example : strIncludes "disk I/O error" "UNIQUE constraint failed" = false := by decide

/-- What a handler sends back: a redirect, a rendered view (with the local
variables the templates receive), the 404 page, or the response produced by
Express's default error handler when an error reaches it. -/
inductive Response where
  | redirect (target : String)
  | render (view : String) (username : Option String) (messages : List Msg)
      (errors : List ValErr)
  | renderPage (view : String) (page : PageRec) (pageName : String)
      (username : Option String) (messages : List Msg)
  | render404 (username : Option String) (messages : List Msg)
  | serverError (errMsg : String)
deriving DecidableEq

/-- The full effect of one request: the response plus the outgoing session
and application state. -/
structure Outcome where
  resp : Response
  session : Session
  state : AppState
deriving DecidableEq

/-- The idiom `req.session.user?.username || null` used throughout the
handlers: the logged-in username, or `null` when `session.user` is absent
or its `username` is falsy (the empty string). -/
def usernameOf (s : Session) : Option String :=
  match s.user with
  | some u => if u = "" then none else some u
  | none => none

/-- The express-validator result object (`validationResult(req)`), reduced
to its `errors` array. -/
structure ValidationResult where
  errors : List ValErr
deriving DecidableEq

/-- JS property access `result.errros`: the validator result object has no
such property (the code in `src/unnamed/part_007` misspells `errors`), so
the access evaluates to `undefined`, modeled as `none`. -/
def ValidationResult.errros (_ : ValidationResult) : Option (List ValErr) :=
  none

/-- Validation chain of `POST /register`:
`body('username').notEmpty().withMessage('Username is required').trim().isLength({ min: 3, max: 25 })`
and `body('password').notEmpty().withMessage('Password is required').isLength({ min: 6 })`.
`notEmpty` runs on the raw value, `isLength` on the trimmed one; a failed
validator does not stop the chain, so several errors can accumulate.
`isLength` carries express-validator's default message. -/
def validateRegister (username password : String) : List ValErr :=
  (if username = "" then [⟨"username", "Username is required"⟩] else []) ++
  (if (jsTrim username).length < 3 ∨ 25 < (jsTrim username).length then
    [⟨"username", "Invalid value"⟩] else []) ++
  (if password = "" then [⟨"password", "Password is required"⟩] else []) ++
  (if password.length < 6 then [⟨"password", "Invalid value"⟩] else [])

/-- Validation chain of `POST /login`: both fields `notEmpty`, no
sanitizer and no length bounds. -/
def validateLogin (username password : String) : List ValErr :=
  (if username = "" then [⟨"username", "Username is required"⟩] else []) ++
  (if password = "" then [⟨"password", "Password is required"⟩] else [])

/-- Validation chain of `POST /create`:
`body('title').notEmpty().withMessage('Page title is required').trim()` and
`body('content').notEmpty().withMessage('Content is required')`. -/
def validateCreate (title content : String) : List ValErr :=
  (if title = "" then [⟨"title", "Page title is required"⟩] else []) ++
  (if content = "" then [⟨"content", "Content is required"⟩] else [])

/-- `POST /register` from `src/unnamed/part_007` (lines 30–52).  On
validation failure it assigns the misspelled `errors.errros` — i.e. JS
`undefined` — to `req.session.errors` and redirects to `/register`; on a
duplicate username it stores the danger flash and redirects to
`/register`; otherwise it creates the user (keyed by the trimmed username,
since the `.trim()` sanitizer rewrote `req.body.username`) and redirects
to `/login`. -/
def postRegisterU (s : Session) (st : AppState) (username password : String) :
    Outcome :=
  let vr : ValidationResult := ⟨validateRegister username password⟩
  if vr.errors.isEmpty then
    let t := jsTrim username
    match assocGet st.users t with
    | some _ =>
        { resp := .redirect "/register",
          session := { s with messages := [⟨"danger", "Username already exists!"⟩] },
          state := st }
    | none =>
        { resp := .redirect "/login",
          session := { s with
            messages := [⟨"success", "Registration successful! Please log in."⟩] },
          state := { st with users := assocSet st.users t ⟨password, none⟩ } }
  else
    { resp := .redirect "/register",
      session := { s with errors := vr.errros },
      state := st }

/-- `POST /register` from `src/Workshop3/Example/Example5/routes/auth.js`
(lines 11–33).  Identical to `postRegisterU` except that on validation
failure it maps the validator errors to danger flash messages
(`errors.array().map(err => ({ category: 'danger', message: err.msg }))`). -/
def postRegisterEx5 (s : Session) (st : AppState) (username password : String) :
    Outcome :=
  let vr : ValidationResult := ⟨validateRegister username password⟩
  if vr.errors.isEmpty then
    let t := jsTrim username
    match assocGet st.users t with
    | some _ =>
        { resp := .redirect "/register",
          session := { s with messages := [⟨"danger", "Username already exists!"⟩] },
          state := st }
    | none =>
        { resp := .redirect "/login",
          session := { s with
            messages := [⟨"success", "Registration successful! Please log in."⟩] },
          state := { st with users := assocSet st.users t ⟨password, none⟩ } }
  else
    { resp := .redirect "/register",
      session := { s with
        messages := vr.errors.map (fun e => ⟨"danger", e.msg⟩) },
      state := st }

/-- `POST /login` from `src/unnamed/part_007` (lines 64–87).  On validation
failure it assigns the misspelled `errors.errros` (JS `undefined`) to
`req.session.errors` and redirects to `/login`.  Otherwise it looks the
user up and tests `user && user.password === password`: on success it sets
`session.user = { username }` and redirects to `/`, else it stores the
invalid-credentials flash and redirects to `/login`. -/
def postLoginU (s : Session) (st : AppState) (username password : String) :
    Outcome :=
  let vr : ValidationResult := ⟨validateLogin username password⟩
  if vr.errors.isEmpty then
    match assocGet st.users username with
    | some user =>
        if user.password = password then
          { resp := .redirect "/",
            session := { s with
              user := some username
              messages := [⟨"success", "Login successful!"⟩] },
            state := st }
        else
          { resp := .redirect "/login",
            session := { s with
              messages := [⟨"danger", "Invalid username or password."⟩] },
            state := st }
    | none =>
        { resp := .redirect "/login",
          session := { s with
            messages := [⟨"danger", "Invalid username or password."⟩] },
          state := st }
  else
    { resp := .redirect "/login",
      session := { s with errors := vr.errros },
      state := st }

/-- `POST /login` from `src/Workshop3/Example/Example5/routes/auth.js`
(lines 42–65).  Identical to `postLoginU` except that on validation failure
it maps the validator errors to danger flash messages. -/
def postLoginEx5 (s : Session) (st : AppState) (username password : String) :
    Outcome :=
  let vr : ValidationResult := ⟨validateLogin username password⟩
  if vr.errors.isEmpty then
    match assocGet st.users username with
    | some user =>
        if user.password = password then
          { resp := .redirect "/",
            session := { s with
              user := some username
              messages := [⟨"success", "Login successful!"⟩] },
            state := st }
        else
          { resp := .redirect "/login",
            session := { s with
              messages := [⟨"danger", "Invalid username or password."⟩] },
            state := st }
    | none =>
        { resp := .redirect "/login",
          session := { s with
            messages := [⟨"danger", "Invalid username or password."⟩] },
          state := st }
  else
    { resp := .redirect "/login",
      session := { s with
        messages := vr.errors.map (fun e => ⟨"danger", e.msg⟩) },
      state := st }

/-- `GET /register` from `src/unnamed/part_007` (lines 20–28): read the
pending flash messages and validation errors into locals, clear both on
the session, and render them. -/
def getRegisterU (s : Session) : Session × Response :=
  let messages := s.messages
  let errors := s.errors.getD []
  ({ s with messages := [], errors := some [] },
   .render "register" (usernameOf s) messages errors)

/-- `GET /login` from `src/unnamed/part_007` (lines 54–62): same
read-then-clear shape as `getRegisterU`. -/
def getLoginU (s : Session) : Session × Response :=
  let messages := s.messages
  let errors := s.errors.getD []
  ({ s with messages := [], errors := some [] },
   .render "login" (usernameOf s) messages errors)

/-- `GET /register` from `src/Workshop3/Example/Example5/routes/auth.js`
(lines 5–9): the handler assigns `req.session.messages = []` first and only
then renders `messages: req.session.messages || []`, so the rendered
message list is the just-cleared one. -/
def getRegisterEx5 (s : Session) : Session × Response :=
  let s' := { s with messages := [] }
  (s', .render "register" (usernameOf s') s'.messages [])

/-- `GET /login` from `src/Workshop3/Example/Example5/routes/auth.js`
(lines 35–40): read the pending messages, clear them, render the read
ones (and a literal empty `errors` list). -/
def getLoginEx5 (s : Session) : Session × Response :=
  let messages := s.messages
  ({ s with messages := [] }, .render "login" (usernameOf s) messages [])

/-- The danger flash stored by the `requireLogin` guard. -/
def guardMsg : Msg :=
  ⟨"danger", "You must be logged in to access this page."⟩

/-- The `requireLogin` middleware from `src/unnamed/part_005`: compute
`req.session.user?.username || null`; when it is `null` store the danger
flash and redirect to `/login` (the wrapped handler never runs), otherwise
call `next()`, i.e. the handler. -/
def requireLogin (s : Session) (st : AppState)
    (handler : Session → AppState → Outcome) : Outcome :=
  match usernameOf s with
  | none =>
      { resp := .redirect "/login",
        session := { s with messages := [guardMsg] },
        state := st }
  | some _ => handler s st

/-- `GET /wiki/:pageName` from `src/unnamed/part_006` (lines 7–18).  On a
missing page: danger flash and redirect to `/404`.  On a hit the handler
assigns `page.htmlContent = page.content` on the stored page object itself
— modeled by writing the updated record back into the store — and renders
it. -/
def getWikiU (s : Session) (st : AppState) (pageName : String) : Outcome :=
  match assocGet st.pages pageName with
  | none =>
      { resp := .redirect "/404",
        session := { s with messages := [⟨"danger", "This page don\x27t exist"⟩] },
        state := st }
  | some page =>
      let page' := { page with htmlContent := some page.content }
      { resp := .renderPage "wiki_page" page' pageName (usernameOf s) [],
        session := s,
        state := { st with pages := assocSet st.pages pageName page' } }

/-- `GET /create` from `src/unnamed/part_006` (lines 20–27): guarded by
`requireLogin`; reads pending messages and errors, clears both, renders
the create form. -/
def getCreateU (s : Session) (st : AppState) : Outcome :=
  requireLogin s st (fun s st =>
    { resp := .render "create_page" (usernameOf s) s.messages (s.errors.getD []),
      session := { s with messages := [], errors := some [] },
      state := st })

/-- `POST /create` from `src/unnamed/part_006` (lines 29–43): guarded by
`requireLogin`; on validation failure stores `errors.errors` (this router
spells it correctly) and redirects to `/create`; otherwise assigns
`pages[title] = { content, author: username }` — the `.trim()` sanitizer
has rewritten `req.body.title` — and redirects to `/wiki/<title>`. -/
def postCreateU (s : Session) (st : AppState) (title content : String) : Outcome :=
  requireLogin s st (fun s st =>
    let vr : ValidationResult := ⟨validateCreate title content⟩
    if vr.errors.isEmpty then
      let t := jsTrim title
      { resp := .redirect ("/wiki/" ++ t),
        session := s,
        state := { st with
          pages := assocSet st.pages t ⟨content, usernameOf s, false, none⟩ } }
    else
      { resp := .redirect "/create",
        session := { s with errors := some vr.errors },
        state := st })

/-- `GET /wiki/:pageName` from
`src/Workshop3/Example/Example2/routes/wiki.js` (lines 17–27), the Markdown
variant.  `marked` is the Markdown-to-HTML transform imported from the
`marked` package, taken here as a parameter.  On a miss it renders the 404
view; on a hit it assigns
`page.htmlContent = page.isMarkdown ? marked(page.content) : page.content`
onto the stored page object and renders it. -/
def getWikiMd (marked : String → String) (s : Session) (st : AppState)
    (pageName : String) : Outcome :=
  match assocGet st.pages pageName with
  | none =>
      { resp := .render404 (usernameOf s) [], session := s, state := st }
  | some page =>
      let page' := { page with
        htmlContent := some (if page.isMarkdown then marked page.content
          else page.content) }
      { resp := .renderPage "wiki_page" page' pageName (usernameOf s) [],
        session := s,
        state := { st with pages := assocSet st.pages pageName page' } }

/-- `POST /create` from `src/Workshop3/Example/Example2/routes/wiki.js`
(lines 36–50): guarded; on validation failure maps the errors to danger
flash messages and redirects to `/create`; otherwise stores
`pages[title] = { content, author: username, isMarkdown: true }` and
redirects to `/wiki/<title>`. -/
def postCreateMd (s : Session) (st : AppState) (title content : String) : Outcome :=
  requireLogin s st (fun s st =>
    let vr : ValidationResult := ⟨validateCreate title content⟩
    if vr.errors.isEmpty then
      let t := jsTrim title
      { resp := .redirect ("/wiki/" ++ t),
        session := s,
        state := { st with
          pages := assocSet st.pages t ⟨content, usernameOf s, true, none⟩ } }
    else
      { resp := .redirect "/create",
        session := { s with
          messages := vr.errors.map (fun e => ⟨"danger", e.msg⟩) },
        state := st })

/-- A file as submitted in the multipart form: the client-supplied
`originalname` and the random `filename` multer assigns on disk. -/
structure RawFile where
  originalname : String
  filename : String
deriving DecidableEq

/-- `allowedExtensions` from
`src/Workshop4/Example/Example3/middlewares/upload.js`. -/
def allowedExtensions : List String :=
  [".png", ".jpg", ".jpeg", ".gif"]

/-- The multer `fileFilter` predicate:
`allowedExtensions.includes(path.extname(file.originalname).toLowerCase())`. -/
def fileFilterAccepts (f : RawFile) : Bool :=
  allowedExtensions.contains (jsToLower (extname f.originalname))

/-- `upload.single('avatar')` with the `fileFilter` of `upload.js`.  When no
file field was submitted, the handler runs with `req.file` undefined
(`ok none`).  When the filter accepts, `req.file` is set (`ok (some f)`).
When the filter rejects, it calls `cb(new Error('Only images are allowed'))`;
multer hands that error to Express (`next(err)`), so the route handler never
runs and — these apps installing no error-handling middleware — Express's
default error handler answers (`error`). -/
def multerSingle (file : Option RawFile) : Except String (Option RawFile) :=
  match file with
  | none => .ok none
  | some f =>
      if fileFilterAccepts f then .ok (some f)
      else .error "Only images are allowed"

/-- `POST /profile` from `src/Workshop3/Example/Example4/routes/profile.js`
(lines 36–48), composed with its middleware chain
`requireLogin, upload.single('avatar')`.  A filter-rejected file aborts the
chain with the multer error; with no file the handler stores the danger
flash and redirects; with an accepted file it sets
`users[username].avatar = req.file.filename` (a JS `TypeError` — surfaced
as an error response — if the logged-in username has no record). -/
def postProfileMem (s : Session) (st : AppState) (file : Option RawFile) :
    Outcome :=
  requireLogin s st (fun s st =>
    match multerSingle file with
    | .error e => { resp := .serverError e, session := s, state := st }
    | .ok none =>
        { resp := .redirect "/profile",
          session := { s with
            messages := [⟨"danger", "No file selected or invalid file type."⟩] },
          state := st }
    | .ok (some f) =>
        match usernameOf s with
        | some u =>
            match assocGet st.users u with
            | some rec =>
                { resp := .redirect "/profile",
                  session := { s with
                    messages := [⟨"success", "Avatar updated!"⟩] },
                  state := { st with
                    users := assocSet st.users u { rec with avatar := some f.filename } } }
            | none => { resp := .serverError "TypeError", session := s, state := st }
        | none => { resp := .serverError "TypeError", session := s, state := st })

/-- The insert-error mapping inside the `db.run` callback of the SQL-backed
`POST /create` (`src/Workshop4/Example/Example2/routes/wiki.js`,
lines 73–83): a duplicate-title message when the error text contains
`UNIQUE constraint failed`, a generic failure message otherwise. -/
def insertErrorMessage (errMsg : String) : Msg :=
  if strIncludes errMsg "UNIQUE constraint failed" then
    ⟨"danger", "A page with that title already exists!"⟩
  else
    ⟨"danger", "Failed to create page."⟩

/-- The SQL-backed `POST /create`
(`src/Workshop4/Example/Example2/routes/wiki.js`, lines 53–92): guarded and
validated as the in-memory variant; the pages live in the database, so the
outcome of `INSERT INTO pages (title, content) VALUES (?, ?)` is a
parameter (`none` = success, `some err` = the reported error).  On an
insert error the callback stores `insertErrorMessage err` and redirects to
`/create`; on success the handler stores the success flash and redirects
to `/wiki/<title>`. -/
def postCreateSql (s : Session) (st : AppState) (title content : String)
    (insertErr : Option String) : Outcome :=
  requireLogin s st (fun s st =>
    let vr : ValidationResult := ⟨validateCreate title content⟩
    if vr.errors.isEmpty then
      match insertErr with
      | some e =>
          { resp := .redirect "/create",
            session := { s with messages := [insertErrorMessage e] },
            state := st }
      | none =>
          { resp := .redirect ("/wiki/" ++ jsTrim title),
            session := { s with
              messages := [⟨"success", "Page created successfully!"⟩] },
            state := st }
    else
      { resp := .redirect "/create",
        session := { s with errors := some vr.errors },
        state := st })

/-- Claim C8: in the in-memory variant, a `POST /login` with non-empty
username and password succeeds — sets `session.user` to the username and
redirects to `/` — exactly when the users store has an entry for that
username whose stored password is string-equal to the submitted one (plain
text, no hashing); otherwise `session.user` is left as it was and the
response redirects to `/login` with the invalid-credentials danger flash.
Both in-memory routers (`part_007` and Workshop3/Example5) agree on valid
input. -/
theorem login_plaintext_equality (s : Session) (st : AppState)
    (username password : String) (hu : username ≠ "") (hp : password ≠ "") :
    postLoginEx5 s st username password = postLoginU s st username password ∧
    (∀ rec, assocGet st.users username = some rec → rec.password = password →
       postLoginU s st username password =
         ⟨.redirect "/",
          { s with
            user := some username
            messages := [⟨"success", "Login successful!"⟩] }, st⟩) ∧
    ((∀ rec, assocGet st.users username = some rec → rec.password ≠ password) →
       postLoginU s st username password =
         ⟨.redirect "/login",
          { s with messages := [⟨"danger", "Invalid username or password."⟩] },
          st⟩ ∧
       (postLoginU s st username password).session.user = s.user) := by
  have hv : validateLogin username password = [] := by
    simp [validateLogin, hu, hp]
  refine ⟨?_, ?_, ?_⟩
  · cases h : assocGet st.users username with
    | none => simp [postLoginU, postLoginEx5, hv, h]
    | some rec =>
        by_cases hpw : rec.password = password <;>
          simp [postLoginU, postLoginEx5, hv, h, hpw]
  · intro rec h hpw
    simp [postLoginU, hv, h, hpw]
  · intro hno
    cases h : assocGet st.users username with
    | none => simp [postLoginU, hv, h]
    | some rec => simp [postLoginU, hv, h, hno rec h]

/-- Witness for C8: with the store holding `bob ↦ { password: "secret1" }`,
logging in as `bob`/`secret1` succeeds, and logging in as `bob`/`wrong1`
fails without touching `session.user`. -/
theorem login_plaintext_equality_witness :
    postLoginU ⟨none, [], none⟩ ⟨[("bob", ⟨"secret1", none⟩)], []⟩ "bob" "secret1" =
      ⟨.redirect "/",
       ⟨some "bob", [⟨"success", "Login successful!"⟩], none⟩,
       ⟨[("bob", ⟨"secret1", none⟩)], []⟩⟩ ∧
    postLoginU ⟨none, [], none⟩ ⟨[("bob", ⟨"secret1", none⟩)], []⟩ "bob" "wrong1" =
      ⟨.redirect "/login",
       ⟨none, [⟨"danger", "Invalid username or password."⟩], none⟩,
       ⟨[("bob", ⟨"secret1", none⟩)], []⟩⟩ := by
  constructor
  · exact (login_plaintext_equality ⟨none, [], none⟩
      ⟨[("bob", ⟨"secret1", none⟩)], []⟩ "bob" "secret1"
      (by decide) (by decide)).2.1 ⟨"secret1", none⟩ (by decide) (by decide)
  · exact ((login_plaintext_equality ⟨none, [], none⟩
      ⟨[("bob", ⟨"secret1", none⟩)], []⟩ "bob" "wrong1"
      (by decide) (by decide)).2.2
      (by intro rec hrec; cases hrec; decide)).1

/-- Claim C10: for every existing page, `GET /wiki/:pageName` mutates the
shared pages store, writing an `htmlContent` field onto the stored record —
the page's content in the plain variant, the `marked`-rendered HTML of the
content in the Markdown variant (the content and author fields are kept). -/
theorem wiki_view_mutates_store (marked : String → String) (s : Session)
    (st : AppState) (pageName : String) (page : PageRec)
    (h : assocGet st.pages pageName = some page) :
    assocGet (getWikiU s st pageName).state.pages pageName =
      some { page with htmlContent := some page.content } ∧
    assocGet (getWikiMd marked s st pageName).state.pages pageName =
      some { page with
        htmlContent := some (if page.isMarkdown then marked page.content
          else page.content) } := by
  constructor <;> simp [getWikiU, getWikiMd, h, assocGet_assocSet_self]

/-- Witness for C10: viewing `Home` (plain variant) stores
`htmlContent = "hello"` on its record; viewing the Markdown-flagged `Doc`
with a concrete `marked` stores the rendered HTML. -/
theorem wiki_view_mutates_store_witness :
    assocGet (getWikiU ⟨none, [], none⟩
        ⟨[], [("Home", ⟨"hello", some "ann", false, none⟩)]⟩ "Home").state.pages
        "Home" =
      some ⟨"hello", some "ann", false, some "hello"⟩ ∧
    assocGet (getWikiMd (fun c => "<p>" ++ c ++ "</p>") ⟨none, [], none⟩
        ⟨[], [("Doc", ⟨"hi", some "bo", true, none⟩)]⟩ "Doc").state.pages
        "Doc" =
      some ⟨"hi", some "bo", true, some "<p>hi</p>"⟩ := by
  constructor
  · exact (wiki_view_mutates_store (fun c => c) ⟨none, [], none⟩
      ⟨[], [("Home", ⟨"hello", some "ann", false, none⟩)]⟩ "Home"
      ⟨"hello", some "ann", false, none⟩ (by decide)).1
  · exact (wiki_view_mutates_store (fun c => "<p>" ++ c ++ "</p>")
      ⟨none, [], none⟩ ⟨[], [("Doc", ⟨"hi", some "bo", true, none⟩)]⟩ "Doc"
      ⟨"hi", some "bo", true, none⟩ (by decide)).2

/-- Claim C9: in the `part_007` auth router, a `POST /register` or
`POST /login` that fails validation assigns the misspelled `errors.errros`
— JS `undefined` — to `session.errors`, so no validation error details are
persisted and the redirected `GET /register` / `GET /login` renders with an
empty error list. -/
theorem errros_typo_drops_errors (s : Session) (st : AppState) (u p : String) :
    (validateRegister u p ≠ [] →
       (postRegisterU s st u p).session.errors = none ∧
       (postRegisterU s st u p).resp = .redirect "/register" ∧
       (getRegisterU (postRegisterU s st u p).session).2 =
         .render "register" (usernameOf s) s.messages []) ∧
    (validateLogin u p ≠ [] →
       (postLoginU s st u p).session.errors = none ∧
       (postLoginU s st u p).resp = .redirect "/login" ∧
       (getLoginU (postLoginU s st u p).session).2 =
         .render "login" (usernameOf s) s.messages []) := by
  constructor
  · intro h
    have hne : (validateRegister u p).isEmpty = false := by
      cases hveq : validateRegister u p with
      | nil => exact absurd hveq h
      | cons a l => rfl
    refine ⟨?_, ?_, ?_⟩ <;>
      simp [postRegisterU, hne, getRegisterU, ValidationResult.errros, usernameOf]
  · intro h
    have hne : (validateLogin u p).isEmpty = false := by
      cases hveq : validateLogin u p with
      | nil => exact absurd hveq h
      | cons a l => rfl
    refine ⟨?_, ?_, ?_⟩ <;>
      simp [postLoginU, hne, getLoginU, ValidationResult.errros, usernameOf]

/-- Witness for C9: the empty username and password fail both validations;
afterward `session.errors` is `none` and the redirected pages render empty
error lists. -/
theorem errros_typo_drops_errors_witness :
    ((postRegisterU ⟨none, [], none⟩ ⟨[], []⟩ "" "").session.errors = none ∧
     (postRegisterU ⟨none, [], none⟩ ⟨[], []⟩ "" "").resp = .redirect "/register" ∧
     (getRegisterU (postRegisterU ⟨none, [], none⟩ ⟨[], []⟩ "" "").session).2 =
       .render "register" (usernameOf ⟨none, [], none⟩) ([] : List Msg) []) ∧
    ((postLoginU ⟨none, [], none⟩ ⟨[], []⟩ "" "").session.errors = none ∧
     (postLoginU ⟨none, [], none⟩ ⟨[], []⟩ "" "").resp = .redirect "/login" ∧
     (getLoginU (postLoginU ⟨none, [], none⟩ ⟨[], []⟩ "" "").session).2 =
       .render "login" (usernameOf ⟨none, [], none⟩) ([] : List Msg) []) := by
  exact ⟨(errros_typo_drops_errors ⟨none, [], none⟩ ⟨[], []⟩ "" "").1 (by decide),
         (errros_typo_drops_errors ⟨none, [], none⟩ ⟨[], []⟩ "" "").2 (by decide)⟩

/-- Claim C2: an authenticated `POST /create` with non-empty title and
content stores the page under the (sanitizer-trimmed) title, redirects
there, and the page is immediately retrievable by `GET /wiki/:pageName`
with that exact title: the view renders the stored content and author, and
— the record carrying `isMarkdown = true` — its `htmlContent` is exactly
`marked content`, the single deterministic Markdown-to-HTML transform of
the stored content. -/
theorem create_then_view (marked : String → String) (s : Session)
    (st : AppState) (title content u : String) (hu : usernameOf s = some u)
    (ht : title ≠ "") (hc : content ≠ "") :
    (postCreateMd s st title content).resp =
      .redirect ("/wiki/" ++ jsTrim title) ∧
    (postCreateMd s st title content).session = s ∧
    assocGet (postCreateMd s st title content).state.pages (jsTrim title) =
      some ⟨content, some u, true, none⟩ ∧
    (getWikiMd marked (postCreateMd s st title content).session
        (postCreateMd s st title content).state (jsTrim title)).resp =
      .renderPage "wiki_page" ⟨content, some u, true, some (marked content)⟩
        (jsTrim title) (some u) [] := by
  have hv : validateCreate title content = [] := by
    simp [validateCreate, ht, hc]
  have hpost : postCreateMd s st title content =
      ⟨.redirect ("/wiki/" ++ jsTrim title), s,
       { st with
         pages := assocSet st.pages (jsTrim title) ⟨content, some u, true, none⟩ }⟩ := by
    simp [postCreateMd, requireLogin, hu, hv]
  refine ⟨by rw [hpost], by rw [hpost], ?_, ?_⟩
  · rw [hpost]
    simpa using assocGet_assocSet_self st.pages (jsTrim title) _
  · rw [hpost]
    simp [getWikiMd, assocGet_assocSet_self, hu]

/-- Witness for C2: logged in as `ann`, creating `Home` with content `hi`
and then viewing `/wiki/Home` renders the stored page with
`htmlContent = marked "hi"` for a concrete `marked`. -/
theorem create_then_view_witness :
    (postCreateMd ⟨some "ann", [], none⟩ ⟨[], []⟩ "Home" "hi").resp =
      .redirect ("/wiki/" ++ jsTrim "Home") ∧
    (postCreateMd ⟨some "ann", [], none⟩ ⟨[], []⟩ "Home" "hi").session =
      ⟨some "ann", [], none⟩ ∧
    assocGet (postCreateMd ⟨some "ann", [], none⟩ ⟨[], []⟩ "Home" "hi").state.pages
        (jsTrim "Home") =
      some ⟨"hi", some "ann", true, none⟩ ∧
    (getWikiMd (fun c => "<p>" ++ c ++ "</p>")
        (postCreateMd ⟨some "ann", [], none⟩ ⟨[], []⟩ "Home" "hi").session
        (postCreateMd ⟨some "ann", [], none⟩ ⟨[], []⟩ "Home" "hi").state
        (jsTrim "Home")).resp =
      .renderPage "wiki_page" ⟨"hi", some "ann", true, some "<p>hi</p>"⟩
        (jsTrim "Home") (some "ann") [] := by
  exact create_then_view (fun c => "<p>" ++ c ++ "</p>")
    ⟨some "ann", [], none⟩ ⟨[], []⟩ "Home" "hi" "ann"
    (by decide) (by decide) (by decide)

/-- Counterexample to Claim C1 as stated: with `bob` already registered, a
`POST /register` for `bob` with the 3-character password `abc` fails field
validation first, so it redirects to `/register` with NO
`Username already exists!` danger flash (the message list stays empty) —
yet the username exists in the store. -/
theorem register_existing_username_ce :
    assocGet ([("bob", (⟨"secret1", none⟩ : UserRec))]) "bob" =
      some ⟨"secret1", none⟩ ∧
    (postRegisterU ⟨none, [], none⟩ ⟨[("bob", ⟨"secret1", none⟩)], []⟩
        "bob" "abc").resp = .redirect "/register" ∧
    (postRegisterU ⟨none, [], none⟩ ⟨[("bob", ⟨"secret1", none⟩)], []⟩
        "bob" "abc").session.messages = [] := by
  decide

/-- Claim C1 (amended): a `POST /register` whose (trimmed) username already
exists is rejected with the users store left entirely unchanged; when the
request passes field validation the rejection carries the danger flash
`Username already exists!` and redirects to `/register`; when validation
fails the rejection still redirects to `/register` and still leaves the
store unchanged, but without that flash.  Both router variants
(`part_007` and Workshop3/Example5) behave this way. -/
theorem register_existing_username (s : Session) (st : AppState) (u p : String)
    (hex : ∃ rec, assocGet st.users (jsTrim u) = some rec) :
    (validateRegister u p = [] →
       postRegisterU s st u p =
         ⟨.redirect "/register",
          { s with messages := [⟨"danger", "Username already exists!"⟩] }, st⟩ ∧
       postRegisterEx5 s st u p =
         ⟨.redirect "/register",
          { s with messages := [⟨"danger", "Username already exists!"⟩] }, st⟩) ∧
    (validateRegister u p ≠ [] →
       (postRegisterU s st u p).state = st ∧
       (postRegisterU s st u p).resp = .redirect "/register" ∧
       (postRegisterEx5 s st u p).state = st ∧
       (postRegisterEx5 s st u p).resp = .redirect "/register") := by
  obtain ⟨rec, hrec⟩ := hex
  constructor
  · intro hv
    constructor <;> simp [postRegisterU, postRegisterEx5, hv, hrec]
  · intro hv
    have hne : (validateRegister u p).isEmpty = false := by
      cases hveq : validateRegister u p with
      | nil => exact absurd hveq hv
      | cons a l => rfl
    refine ⟨?_, ?_, ?_, ?_⟩ <;> simp [postRegisterU, postRegisterEx5, hne]

/-- Witness for C1 (amended): `bob` exists; a fully valid re-registration
(`bob`/`abcdef`) is rejected with the duplicate flash and the store kept;
the invalid one (`bob`/`abc`) is rejected with the store kept. -/
theorem register_existing_username_witness :
    (postRegisterU ⟨none, [], none⟩ ⟨[("bob", ⟨"secret1", none⟩)], []⟩
        "bob" "abcdef" =
      ⟨.redirect "/register",
       ⟨none, [⟨"danger", "Username already exists!"⟩], none⟩,
       ⟨[("bob", ⟨"secret1", none⟩)], []⟩⟩) ∧
    (postRegisterU ⟨none, [], none⟩ ⟨[("bob", ⟨"secret1", none⟩)], []⟩
        "bob" "abc").state = ⟨[("bob", ⟨"secret1", none⟩)], []⟩ := by
  constructor
  · exact ((register_existing_username ⟨none, [], none⟩
      ⟨[("bob", ⟨"secret1", none⟩)], []⟩ "bob" "abcdef"
      ⟨⟨"secret1", none⟩, by decide⟩).1 (by decide)).1
  · exact ((register_existing_username ⟨none, [], none⟩
      ⟨[("bob", ⟨"secret1", none⟩)], []⟩ "bob" "abc"
      ⟨⟨"secret1", none⟩, by decide⟩).2 (by decide)).1

/-- A concrete guarded handler, used to exhibit how the `requireLogin`
guard dispatches: it renders the create form from the session's pending
data and changes nothing. -/
def demoHandler : Session → AppState → Outcome := fun s st =>
  { resp := .render "create_page" (usernameOf s) s.messages (s.errors.getD []),
    session := s, state := st }

/-- Counterexample to Claim C3 as stated: a session whose `session.user` is
present but carries the empty username.  `session.user` is NOT absent, yet
the guard does not call through to the handler — it redirects to `/login`
(the guard tests the truthiness of `session.user?.username`, not the
presence of `session.user`). -/
theorem guard_redirects_unauthenticated_ce :
    (⟨some "", [], none⟩ : Session).user ≠ none ∧
    requireLogin ⟨some "", [], none⟩ ⟨[], []⟩ demoHandler ≠
      demoHandler ⟨some "", [], none⟩ ⟨[], []⟩ ∧
    (requireLogin ⟨some "", [], none⟩ ⟨[], []⟩ demoHandler).resp =
      .redirect "/login" := by
  decide

/-- Claim C3 (amended): the `requireLogin` guard redirects to `/login` with
the danger flash, leaves the users and pages stores unchanged, and never
invokes the handler, exactly when `session.user?.username || null` is
`null` — i.e. when `session.user` is absent OR holds a falsy (empty)
username; when the session carries a non-empty username the guard calls
straight through to the handler. -/
theorem guard_redirects_unauthenticated (s : Session) (st : AppState)
    (handler : Session → AppState → Outcome) :
    (usernameOf s = none →
       requireLogin s st handler =
         ⟨.redirect "/login", { s with messages := [guardMsg] }, st⟩ ∧
       ∀ handler', requireLogin s st handler = requireLogin s st handler') ∧
    (∀ u, usernameOf s = some u → requireLogin s st handler = handler s st) := by
  constructor
  · intro h
    exact ⟨by simp [requireLogin, h], fun handler' => by simp [requireLogin, h]⟩
  · intro u h
    simp [requireLogin, h]

/-- Witness for C3 (amended): with no session user the guard redirects and
keeps the state; with user `alice` it calls through to the handler. -/
theorem guard_redirects_unauthenticated_witness :
    requireLogin ⟨none, [], none⟩ ⟨[], []⟩ demoHandler =
      ⟨.redirect "/login", ⟨none, [guardMsg], none⟩, ⟨[], []⟩⟩ ∧
    requireLogin ⟨some "alice", [], none⟩ ⟨[], []⟩ demoHandler =
      demoHandler ⟨some "alice", [], none⟩ ⟨[], []⟩ := by
  exact ⟨((guard_redirects_unauthenticated ⟨none, [], none⟩ ⟨[], []⟩
      demoHandler).1 (by decide)).1,
    (guard_redirects_unauthenticated ⟨some "alice", [], none⟩ ⟨[], []⟩
      demoHandler).2 "alice" (by decide)⟩

/-- Counterexample to Claim C6 as stated: with `Foo ↦ { content: "a",
author: "x" }` stored, a logged-in `POST /create` for title `Foo` silently
overwrites the record — the content and author stored under the existing
title change. -/
theorem pages_never_deleted_ce :
    assocGet ([("Foo", (⟨"a", some "x", false, none⟩ : PageRec))]) "Foo" =
      some ⟨"a", some "x", false, none⟩ ∧
    assocGet (postCreateU ⟨some "alice", [], none⟩
        ⟨[], [("Foo", ⟨"a", some "x", false, none⟩)]⟩ "Foo" "b").state.pages
        "Foo" =
      some ⟨"b", some "alice", false, none⟩ := by
  decide

/-- Claim C6 (amended): no wiki operation ever removes a title from the
pages store, and no operation other than `POST /create` changes the content
or author stored under an existing title (`GET /wiki/:pageName` only sets
`htmlContent`; `GET /create` leaves the store untouched); `POST /create`
preserves every entry under a different title, but with an existing title
it overwrites that record — pages are not immutable once created. -/
theorem pages_never_deleted (s : Session) (st : AppState)
    (pageName title content k : String) (rec : PageRec)
    (hk : assocGet st.pages k = some rec) :
    (∃ rec', assocGet (getWikiU s st pageName).state.pages k = some rec' ∧
       rec'.content = rec.content ∧ rec'.author = rec.author) ∧
    (getCreateU s st).state.pages = st.pages ∧
    (∃ rec', assocGet (postCreateU s st title content).state.pages k = some rec') ∧
    (k ≠ jsTrim title →
       assocGet (postCreateU s st title content).state.pages k = some rec) := by
  refine ⟨?_, ?_, ?_, ?_⟩
  · cases hpn : assocGet st.pages pageName with
    | none => exact ⟨rec, by simp [getWikiU, hpn, hk], rfl, rfl⟩
    | some page =>
        by_cases hkp : k = pageName
        · subst hkp
          rw [hk] at hpn
          injection hpn with hpage
          subst hpage
          exact ⟨{ rec with htmlContent := some rec.content },
            by simp [getWikiU, hk, assocGet_assocSet_self], rfl, rfl⟩
        · exact ⟨rec,
            by simp [getWikiU, hpn, assocGet_assocSet_ne st.pages pageName k _ hkp, hk],
            rfl, rfl⟩
  · cases husr : usernameOf s <;> simp [getCreateU, requireLogin, husr]
  · cases husr : usernameOf s with
    | none => exact ⟨rec, by simp [postCreateU, requireLogin, husr, hk]⟩
    | some u =>
        cases hv : (validateCreate title content).isEmpty with
        | false => exact ⟨rec, by simp [postCreateU, requireLogin, husr, hv, hk]⟩
        | true =>
            by_cases hkt : k = jsTrim title
            · subst hkt
              exact ⟨⟨content, usernameOf s, false, none⟩,
                by simp [postCreateU, requireLogin, husr, hv, assocGet_assocSet_self]⟩
            · exact ⟨rec,
                by simp [postCreateU, requireLogin, husr, hv,
                  assocGet_assocSet_ne st.pages (jsTrim title) k _ hkt, hk]⟩
  · intro hkt
    cases husr : usernameOf s with
    | none => simp [postCreateU, requireLogin, husr, hk]
    | some u =>
        cases hv : (validateCreate title content).isEmpty with
        | false => simp [postCreateU, requireLogin, husr, hv, hk]
        | true =>
            simp [postCreateU, requireLogin, husr, hv,
              assocGet_assocSet_ne st.pages (jsTrim title) k _ hkt, hk]

/-- Witness for C6 (amended): with `Foo` stored and `alice` logged in,
viewing `Foo` keeps its content and author, `GET /create` keeps the store,
creating `Bar` keeps `Foo` present and exactly intact. -/
theorem pages_never_deleted_witness :
    (∃ rec', assocGet (getWikiU ⟨some "alice", [], none⟩
        ⟨[], [("Foo", ⟨"a", some "x", false, none⟩)]⟩ "Foo").state.pages "Foo" =
          some rec' ∧
       rec'.content = (⟨"a", some "x", false, none⟩ : PageRec).content ∧
       rec'.author = (⟨"a", some "x", false, none⟩ : PageRec).author) ∧
    (getCreateU ⟨some "alice", [], none⟩
        ⟨[], [("Foo", ⟨"a", some "x", false, none⟩)]⟩).state.pages =
      [("Foo", ⟨"a", some "x", false, none⟩)] ∧
    (∃ rec', assocGet (postCreateU ⟨some "alice", [], none⟩
        ⟨[], [("Foo", ⟨"a", some "x", false, none⟩)]⟩ "Bar" "b").state.pages
        "Foo" = some rec') ∧
    ("Foo" ≠ jsTrim "Bar" →
       assocGet (postCreateU ⟨some "alice", [], none⟩
         ⟨[], [("Foo", ⟨"a", some "x", false, none⟩)]⟩ "Bar" "b").state.pages
         "Foo" = some ⟨"a", some "x", false, none⟩) := by
  exact pages_never_deleted ⟨some "alice", [], none⟩
    ⟨[], [("Foo", ⟨"a", some "x", false, none⟩)]⟩ "Foo" "Bar" "b" "Foo"
    ⟨"a", some "x", false, none⟩ (by decide)

/-- Counterexample to Claim C7 as stated: two failing inserts — a UNIQUE
constraint violation and a disk I/O error — receive different flash
messages, so insert failures are NOT mapped to a single generic message. -/
theorem sql_insert_error_two_messages_ce :
    (postCreateSql ⟨some "alice", [], none⟩ ⟨[], []⟩ "T" "C"
        (some "SQLITE_CONSTRAINT: UNIQUE constraint failed: pages.title")).session.messages ≠
    (postCreateSql ⟨some "alice", [], none⟩ ⟨[], []⟩ "T" "C"
        (some "SQLITE_IOERR: disk I/O error")).session.messages := by
  decide

/-- Claim C7 (amended): in the SQL-backed `POST /create`, every failing
insert is caught and mapped to exactly one of two danger flash messages —
`A page with that title already exists!` when the error text contains
`UNIQUE constraint failed`, the generic `Failed to create page.` otherwise
— after which the user is redirected back to `/create`. -/
theorem sql_insert_error_mapping (s : Session) (st : AppState)
    (title content u e : String) (hu : usernameOf s = some u)
    (ht : title ≠ "") (hc : content ≠ "") :
    postCreateSql s st title content (some e) =
      ⟨.redirect "/create", { s with messages := [insertErrorMessage e] }, st⟩ ∧
    (insertErrorMessage e).category = "danger" ∧
    (strIncludes e "UNIQUE constraint failed" = true →
       (insertErrorMessage e).message = "A page with that title already exists!") ∧
    (strIncludes e "UNIQUE constraint failed" = false →
       (insertErrorMessage e).message = "Failed to create page.") := by
  have hv : validateCreate title content = [] := by
    simp [validateCreate, ht, hc]
  refine ⟨by simp [postCreateSql, requireLogin, hu, hv], ?_, ?_, ?_⟩
  · by_cases hinc : strIncludes e "UNIQUE constraint failed" = true <;>
      simp [insertErrorMessage, hinc]
  · intro hinc
    simp [insertErrorMessage, hinc]
  · intro hinc
    simp [insertErrorMessage, hinc]

/-- Witness for C7 (amended): a concrete UNIQUE-constraint failure is
mapped to the duplicate-title danger flash and redirects to `/create`. -/
theorem sql_insert_error_mapping_witness :
    postCreateSql ⟨some "alice", [], none⟩ ⟨[], []⟩ "T" "C"
        (some "SQLITE_CONSTRAINT: UNIQUE constraint failed: pages.title") =
      ⟨.redirect "/create",
       ⟨some "alice",
        [insertErrorMessage "SQLITE_CONSTRAINT: UNIQUE constraint failed: pages.title"],
        none⟩,
       ⟨[], []⟩⟩ ∧
    (insertErrorMessage "SQLITE_CONSTRAINT: UNIQUE constraint failed: pages.title").message =
      "A page with that title already exists!" := by
  have h := sql_insert_error_mapping ⟨some "alice", [], none⟩ ⟨[], []⟩ "T" "C"
    "alice" "SQLITE_CONSTRAINT: UNIQUE constraint failed: pages.title"
    (by decide) (by decide) (by decide)
  exact ⟨h.1, h.2.2.1 (by decide)⟩

/-- Claim C4 evaluated against the code: a logged-in `POST /profile` whose
file has a disallowed extension makes the `fileFilter` pass
`new Error('Only images are allowed')` to multer, which hands the error to
Express — the route handler never runs, so no danger flash is stored and no
redirect to `/profile` happens; the request ends in the default error
response.  The user's stored record (avatar included) is unchanged.  The
`req.file`-absent branch with the danger flash and redirect is reached only
when no file is submitted at all. -/
theorem upload_bad_extension_errors (s : Session) (st : AppState) (f : RawFile)
    (u : String) (hu : usernameOf s = some u)
    (hbad : allowedExtensions.contains (jsToLower (extname f.originalname)) = false) :
    postProfileMem s st (some f) = ⟨.serverError "Only images are allowed", s, st⟩ ∧
    postProfileMem s st none =
      ⟨.redirect "/profile",
       { s with messages := [⟨"danger", "No file selected or invalid file type."⟩] },
       st⟩ := by
  have hbad' : jsToLower (extname f.originalname) ∉ allowedExtensions := by
    simpa using hbad
  constructor <;>
    simp [postProfileMem, requireLogin, hu, multerSingle, fileFilterAccepts, hbad']

/-- Witness for C4: logged in as `alice` (stored avatar `old.png`), the
upload of `virus.exe` ends in the multer error response with the store —
and thus the avatar — untouched; submitting no file yields the danger flash
and the `/profile` redirect. -/
theorem upload_bad_extension_errors_witness :
    postProfileMem ⟨some "alice", [], none⟩
        ⟨[("alice", ⟨"secret1", some "old.png"⟩)], []⟩
        (some ⟨"virus.exe", "x1"⟩) =
      ⟨.serverError "Only images are allowed", ⟨some "alice", [], none⟩,
       ⟨[("alice", ⟨"secret1", some "old.png"⟩)], []⟩⟩ ∧
    postProfileMem ⟨some "alice", [], none⟩
        ⟨[("alice", ⟨"secret1", some "old.png"⟩)], []⟩ none =
      ⟨.redirect "/profile",
       ⟨some "alice", [⟨"danger", "No file selected or invalid file type."⟩], none⟩,
       ⟨[("alice", ⟨"secret1", some "old.png"⟩)], []⟩⟩ := by
  exact upload_bad_extension_errors ⟨some "alice", [], none⟩
    ⟨[("alice", ⟨"secret1", some "old.png"⟩)], []⟩ ⟨"virus.exe", "x1"⟩ "alice"
    (by decide) (by decide)

/-- Claim C5 evaluated against the code: in the Workshop3/Example5 auth
router, `GET /register` assigns `req.session.messages = []` BEFORE reading,
and then renders `messages: req.session.messages || []` — so with a pending
danger flash in the session the rendered page shows an empty message list:
the pending message is silently dropped, never delivered to the template
(`GET /login` in the same file, and `part_007`, read first and clear
after). -/
theorem ex5_register_discards_flash :
    (getRegisterEx5 ⟨none, [⟨"danger", "Username already exists!"⟩], none⟩).2 =
      .render "register" none [] [] ∧
    (getRegisterEx5 ⟨none, [⟨"danger", "Username already exists!"⟩], none⟩).1.messages
      = [] ∧
    ([⟨"danger", "Username already exists!"⟩] : List Msg) ≠ [] := by
  decide

end Wiki
